import Mathlib

/-!
Verification of the duplication-detection core of the data-download
duplication-alert system (dataset fingerprinting, multi-metric similarity
scoring, threshold classification, and the stateful detection service).

JavaScript `number` values are modelled as real numbers (`ℝ`) for the
similarity scores, while the numeric fields stored inside datasets
(sizes, counts, quality scores) are modelled as rationals (`ℚ`) so that
concrete instances stay decidable; timestamps are epoch milliseconds (`ℤ`).
JavaScript `Record<string, string>` objects are modelled as insertion-ordered
association lists `List (String × String)`, and JavaScript `Set`/key sets as
`Finset String`.
-/

namespace DDAS

/-- Per-column quality scores carried in dataset provenance
(`QualityMetrics` in the dataset type definitions). -/
structure QualityMetrics where
  completeness : ℚ
  consistency : ℚ
  accuracy : ℚ
  freshness : ℚ
  validity : ℚ

/-- Provenance block of a dataset (`ProvenanceInfo`). -/
structure ProvenanceInfo where
  sourceUrl : String
  downloadedAt : ℤ
  transformations : List String
  lineage : List String
  quality : QualityMetrics

/-- Descriptive metadata of a dataset (`DatasetMetadata`). -/
structure DatasetMetadata where
  title : String
  description : String
  author : String
  organization : String
  version : String
  doi : Option String
  license : String
  tags : List String
  columnCount : ℚ
  rowCount : ℚ
  dataTypes : List (String × String)
  provenance : ProvenanceInfo

/-- The four component similarity scores plus the combined confidence
(`SimilarityMetrics`). -/
structure SimilarityMetrics where
  jaccard : ℝ
  cosine : ℝ
  structural : ℝ
  semantic : ℝ
  confidence : ℝ

/-- Derived digests identifying a dataset (`DatasetFingerprint`).  The
optional `similarity` member is a cache field never read by the detection
subsystem. -/
structure DatasetFingerprint where
  contentHash : String
  schemaHash : String
  statisticalHash : String
  merkleRoot : Option String
  bloomFilter : Option String
  similarity : Option SimilarityMetrics

/-- A registered dataset (`Dataset`). -/
structure Dataset where
  id : String
  name : String
  source : String
  size : ℚ
  format : String
  createdAt : ℤ
  modifiedAt : ℤ
  fingerprint : DatasetFingerprint
  metadata : DatasetMetadata

/-- Modelled from the spec: the Node `crypto` SHA-256 hex digest used by the
fingerprinting service is an external library primitive outside this
repository; only equality of digests matters to the properties proved here,
so it is modelled as an injective tagging function. -/
def sha256hex (s : String) : String := "sha256:" ++ s

/-- Function `generateContentHash` of `DatasetFingerprintingService`: digest of the
exact content string. -/
def generateContentHash (content : String) : String := sha256hex content

/-- Comparator used to sort schema entries by column name
(`.sort((a, b) => a[0].localeCompare(b[0]))`, modelled as the lexicographic
order on Lean strings). -/
def entryLE (p q : String × String) : Prop := p.1 ≤ q.1

instance : DecidableRel entryLE := fun p q => inferInstanceAs (Decidable (p.1 ≤ q.1))

instance : IsTotal (String × String) entryLE := ⟨fun a b => le_total a.1 b.1⟩

instance : IsTrans (String × String) entryLE := ⟨fun _ _ _ h1 h2 => le_trans h1 h2⟩

/-- Function `generateSchemaHash` of `DatasetFingerprintingService`: sort the schema
entries by column name, join them as `name:type` pairs with `"|"`, digest. -/
def generateSchemaHash (schema : List (String × String)) : String :=
  sha256hex (String.intercalate "|"
    ((schema.insertionSort entryLE).map fun p => p.1 ++ ":" ++ p.2))

/-- Worker for JavaScript `text.split(/\s+/)`: `some cur` holds the
characters of the token being read (in reverse), `none` means the scanner is
inside a maximal whitespace run. -/
def splitWSGo : Option (List Char) → List Char → List String
  | some cur, [] => [String.mk cur.reverse]
  | none, [] => [""]
  | some cur, c :: rest =>
      if c.isWhitespace then String.mk cur.reverse :: splitWSGo none rest
      else splitWSGo (some (c :: cur)) rest
  | none, c :: rest =>
      if c.isWhitespace then splitWSGo none rest
      else splitWSGo (some [c]) rest

/-- JavaScript `text.split(/\s+/)`: split on maximal whitespace runs, keeping
the empty boundary tokens that JavaScript produces at a leading or trailing
run, and `[""]` on the empty string. -/
def splitWS (s : String) : List String := splitWSGo (some []) s.toList

/-- JavaScript `String.prototype.toLowerCase`, modelled as the characterwise
lowercase map. -/
def toLowerStr (s : String) : String := String.mk (s.toList.map Char.toLower)

/-- The key set of a `Record<string, string>` (`Object.keys(...)` as a set). -/
def keysFinset (schema : List (String × String)) : Finset String :=
  (schema.map Prod.fst).toFinset

/-- Function `calculateJaccardSimilarity` of `SimilarityAnalysisService`:
`|A ∩ B| / |A ∪ B|`, and `0` when the union is empty. -/
noncomputable def calculateJaccardSimilarity (set1 set2 : Finset String) : ℝ :=
  if (set1 ∪ set2).card = 0 then 0
  else ((set1 ∩ set2).card : ℝ) / ((set1 ∪ set2).card : ℝ)

/-- Sum of squares of a numeric vector (the radicand of the magnitude
computed by `calculateCosineSimilarity`). -/
def sumSq (v : List ℚ) : ℚ := (v.map fun a => a * a).sum

/-- Dot product as computed by `vector1.reduce((sum, a, i) => sum + a * vector2[i], 0)`
(only evaluated on equal-length vectors). -/
def dotProd (v1 v2 : List ℚ) : ℚ := (List.zipWith (· * ·) v1 v2).sum

/-- Function `calculateCosineSimilarity` of `SimilarityAnalysisService`: `0` when the
vectors differ in length or either magnitude is zero, else dot product over
the product of magnitudes. -/
noncomputable def calculateCosineSimilarity (vector1 vector2 : List ℚ) : ℝ :=
  if vector1.length ≠ vector2.length then 0
  else if Real.sqrt ((sumSq vector1 : ℚ) : ℝ) = 0 ∨
      Real.sqrt ((sumSq vector2 : ℚ) : ℝ) = 0 then 0
  else ((dotProd vector1 vector2 : ℚ) : ℝ) /
    (Real.sqrt ((sumSq vector1 : ℚ) : ℝ) * Real.sqrt ((sumSq vector2 : ℚ) : ℝ))

/-- Function `calculateStructuralSimilarity` of `SimilarityAnalysisService`: average of
the key-overlap fraction and the matching-type fraction over shared columns,
with `1` for two empty schemas and `0` for the type term when no column is
shared. -/
noncomputable def calculateStructuralSimilarity
    (schema1 schema2 : List (String × String)) : ℝ :=
  if ((keysFinset schema1) ∪ (keysFinset schema2)).card = 0 then 1
  else
    ((((keysFinset schema1) ∩ (keysFinset schema2)).card : ℝ) /
        (((keysFinset schema1) ∪ (keysFinset schema2)).card : ℝ) +
      (if ((keysFinset schema1) ∩ (keysFinset schema2)).card = 0 then 0
        else ((((keysFinset schema1) ∩ (keysFinset schema2)).filter fun k =>
            schema1.lookup k = schema2.lookup k).card : ℝ) /
          (((keysFinset schema1) ∩ (keysFinset schema2)).card : ℝ))) / 2

/-- The lower-cased whitespace-token set of the title and description of a dataset
(the word sets built inside `calculateSemanticSimilarity`). -/
def semanticWords (d : Dataset) : Finset String :=
  (splitWS (toLowerStr (d.metadata.title ++ " " ++ d.metadata.description))).toFinset

/-- Function `calculateSemanticSimilarity` of `SimilarityAnalysisService`: Jaccard
similarity of the two word sets. -/
noncomputable def calculateSemanticSimilarity (dataset1 dataset2 : Dataset) : ℝ :=
  calculateJaccardSimilarity (semanticWords dataset1) (semanticWords dataset2)

/-- Function `extractFeatureVector` of `SimilarityAnalysisService`: the eight-component
numeric vector fed to cosine similarity. -/
def extractFeatureVector (dataset : Dataset) : List ℚ :=
  [dataset.size,
   dataset.metadata.columnCount,
   dataset.metadata.rowCount,
   dataset.metadata.provenance.quality.completeness,
   dataset.metadata.provenance.quality.consistency,
   dataset.metadata.provenance.quality.accuracy,
   dataset.metadata.provenance.quality.freshness,
   dataset.metadata.provenance.quality.validity]

/-- The column-name set used for the Jaccard component of
`calculateSimilarityMetrics`. -/
def columnsOf (dataset : Dataset) : Finset String :=
  keysFinset dataset.metadata.dataTypes

/-- Function `calculateSimilarityMetrics` of `SimilarityAnalysisService`: the four
component metrics plus their unweighted mean as `confidence`. -/
noncomputable def calculateSimilarityMetrics (dataset1 dataset2 : Dataset) :
    SimilarityMetrics where
  jaccard := calculateJaccardSimilarity (columnsOf dataset1) (columnsOf dataset2)
  cosine := calculateCosineSimilarity (extractFeatureVector dataset1)
    (extractFeatureVector dataset2)
  structural := calculateStructuralSimilarity dataset1.metadata.dataTypes
    dataset2.metadata.dataTypes
  semantic := calculateSemanticSimilarity dataset1 dataset2
  confidence :=
    (calculateJaccardSimilarity (columnsOf dataset1) (columnsOf dataset2) +
      calculateStructuralSimilarity dataset1.metadata.dataTypes
        dataset2.metadata.dataTypes +
      calculateCosineSimilarity (extractFeatureVector dataset1)
        (extractFeatureVector dataset2) +
      calculateSemanticSimilarity dataset1 dataset2) / 4

/-- Result type of the threshold classification (`"exact" | "similar" |
"potential" | "none"`). -/
inductive DuplicationType where
  | exact
  | similar
  | potential
  | none
  deriving DecidableEq

/-- The configurable classification thresholds of `isDuplicate`. -/
structure Thresholds where
  exact : ℝ
  similar : ℝ
  potential : ℝ

/-- The default thresholds of `isDuplicate`. -/
noncomputable def defaultThresholds : Thresholds := ⟨0.95, 0.8, 0.6⟩

/-- Function `isDuplicate` of `SimilarityAnalysisService`: first tier whose threshold
the confidence meets, by inclusive comparisons in descending tier order. -/
noncomputable def isDuplicate (similarity : SimilarityMetrics)
    (thresholds : Thresholds) : DuplicationType :=
  if similarity.confidence ≥ thresholds.exact then .exact
  else if similarity.confidence ≥ thresholds.similar then .similar
  else if similarity.confidence ≥ thresholds.potential then .potential
  else .none

/-- Numeric rank of a classification tier, with higher meaning a stronger
duplication verdict. -/
def tierRank : DuplicationType → ℕ
  | .none => 0
  | .potential => 1
  | .similar => 2
  | .exact => 3

/-- A recorded duplication alert (`DuplicationAlert`). -/
structure DuplicationAlert where
  id : String
  type : DuplicationType
  confidence : ℝ
  originalDataset : Dataset
  duplicateDataset : Dataset
  similarities : SimilarityMetrics
  recommendation : String
  createdAt : ℤ

/-- The private state of `DuplicationDetectionService`: the registry
`Map<string, Dataset>` as an insertion-ordered association list, and the
append-only alert log. -/
structure DetectionState where
  datasets : List (String × Dataset)
  alerts : List DuplicationAlert

/-- JavaScript `Map.prototype.set`: replace the entry in place when the key
is present, else append a new entry. -/
def mapSet (entries : List (String × Dataset)) (key : String) (value : Dataset) :
    List (String × Dataset) :=
  if (entries.map Prod.fst).contains key then
    entries.map fun p => if p.1 = key then (key, value) else p
  else entries ++ [(key, value)]

/-- Function `isExactMatch` of `DuplicationDetectionService`: both the content hash
and the schema hash coincide. -/
def isExactMatch (dataset1 dataset2 : Dataset) : Bool :=
  dataset1.fingerprint.contentHash == dataset2.fingerprint.contentHash &&
    dataset1.fingerprint.schemaHash == dataset2.fingerprint.schemaHash

/-- Modelled from the spec: JavaScript `Number.prototype.toFixed(1)`, the
floating-point decimal rendering used only inside recommendation strings; it
is an external runtime primitive whose output no property here inspects, so
it is modelled as an uninterpreted formatter. -/
def toFixed1 (_ : ℝ) : String := ""

/-- Function `generateRecommendation` of `DuplicationDetectionService`: one template
per alert type. -/
def generateRecommendation (type : DuplicationType)
    (similarity : SimilarityMetrics) : String :=
  match type with
  | .exact =>
      "This appears to be an exact duplicate. Consider using a reference link instead of downloading."
  | .similar =>
      "High similarity detected (" ++ toFixed1 (similarity.confidence * 100) ++
        "%). Review differences before downloading."
  | .potential =>
      "Potential duplicate detected (" ++ toFixed1 (similarity.confidence * 100) ++
        "%). Consider if this dataset adds unique value."
  | .none => "No specific recommendation available."

/-- Function `createAlert` of `DuplicationDetectionService`.  The alert id is derived
from the creation time (`alert_${Date.now()}_${random}`; the random suffix is
not modelled), and the full similarity metrics are recomputed here on every
path, including the exact-match shortcut. -/
noncomputable def createAlert (now : ℤ) (newDataset existingDataset : Dataset)
    (type : DuplicationType) (confidence : ℝ) : DuplicationAlert where
  id := "alert_" ++ toString now
  type := type
  confidence := confidence
  originalDataset := existingDataset
  duplicateDataset := newDataset
  similarities := calculateSimilarityMetrics newDataset existingDataset
  recommendation := generateRecommendation type
    (calculateSimilarityMetrics newDataset existingDataset)
  createdAt := now

/-- The loop body of `checkForDuplicates`: walk the registry entries in
order, skip the entry whose key is the id of the new dataset, record an `exact`
alert with confidence `1.0` on a fingerprint match, and otherwise record an
alert carrying the computed metrics unless the classification is `none`. -/
noncomputable def scanAlerts (now : ℤ) (newDataset : Dataset) :
    List (String × Dataset) → List DuplicationAlert
  | [] => []
  | (key, existing) :: rest =>
      if key = newDataset.id then scanAlerts now newDataset rest
      else if isExactMatch newDataset existing then
        createAlert now newDataset existing DuplicationType.exact 1 ::
          scanAlerts now newDataset rest
      else if isDuplicate (calculateSimilarityMetrics newDataset existing)
          defaultThresholds ≠ DuplicationType.none then
        createAlert now newDataset existing
            (isDuplicate (calculateSimilarityMetrics newDataset existing)
              defaultThresholds)
            (calculateSimilarityMetrics newDataset existing).confidence ::
          scanAlerts now newDataset rest
      else scanAlerts now newDataset rest

/-- Function `addDataset` of `DuplicationDetectionService`: insert into the registry
keyed by id, then append the alerts produced by `checkForDuplicates`, which
iterates the registry as it stands after the insertion. -/
noncomputable def addDataset (now : ℤ) (st : DetectionState) (dataset : Dataset) :
    DetectionState where
  datasets := mapSet st.datasets dataset.id dataset
  alerts := st.alerts ++ scanAlerts now dataset (mapSet st.datasets dataset.id dataset)

/-- Function `getAlerts` of `DuplicationDetectionService`: a copy of the alert log. -/
def getAlerts (st : DetectionState) : List DuplicationAlert := st.alerts

/-- Function `getAlertsForDataset` of `DuplicationDetectionService`. -/
def getAlertsForDataset (st : DetectionState) (datasetId : String) :
    List DuplicationAlert :=
  st.alerts.filter fun alert =>
    alert.originalDataset.id == datasetId || alert.duplicateDataset.id == datasetId

/-- Milliseconds per day, the unit behind `cutoffDate.setDate(getDate() - olderThanDays)`. -/
def msPerDay : ℤ := 86400000

/-- Function `clearOldAlerts` of `DuplicationDetectionService`: keep exactly the
alerts created strictly after the cutoff `olderThanDays` days before now. -/
def clearOldAlerts (now olderThanDays : ℤ) (st : DetectionState) :
    DetectionState where
  datasets := st.datasets
  alerts := st.alerts.filter fun alert =>
    decide (now - olderThanDays * msPerDay < alert.createdAt)

/-- The state of a freshly constructed `DuplicationDetectionService`: empty
registry, empty alert log. -/
def initialState : DetectionState := ⟨[], []⟩

/-- Registry well-formedness: every entry is keyed by the id of its dataset.  This
holds in every reachable state because `addDataset` inserts with
`datasets.set(dataset.id, dataset)`. -/
def KeyInv (st : DetectionState) : Prop := ∀ p ∈ st.datasets, p.1 = p.2.id

/-- No alert in the log pairs a dataset id with itself. -/
def NoSelfPair (st : DetectionState) : Prop :=
  ∀ a ∈ st.alerts, a.originalDataset.id ≠ a.duplicateDataset.id

/-- The states reachable through the public interface of
`DuplicationDetectionService`, starting from a fresh instance. -/
inductive Reachable : DetectionState → Prop where
  | init : Reachable initialState
  | add (now : ℤ) (st : DetectionState) (d : Dataset) :
      Reachable st → Reachable (addDataset now st d)
  | clear (now olderThanDays : ℤ) (st : DetectionState) :
      Reachable st → Reachable (clearOldAlerts now olderThanDays st)

/-- Quality block used by the concrete sample datasets. -/
def sampleQuality : QualityMetrics := ⟨1, 1, 1, 1, 1⟩

/-- An all-zero quality block (used to zero out the feature vector). -/
def zeroQuality : QualityMetrics := ⟨0, 0, 0, 0, 0⟩

/-- Provenance block used by the concrete sample datasets. -/
def sampleProvenance : ProvenanceInfo :=
  ⟨"https://example.org/a", 0, [], [], sampleQuality⟩

/-- Provenance block with all-zero quality scores. -/
def zeroProvenance : ProvenanceInfo :=
  ⟨"https://example.org/z", 0, [], [], zeroQuality⟩

/-- Fingerprint shared by the matching sample datasets. -/
def sampleFingerprint : DatasetFingerprint :=
  ⟨"contenthash1", "schemahash1", "stathash1", Option.none, Option.none, Option.none⟩

/-- Sample dataset `A`, a well-formed registered dataset. -/
def dsA : Dataset where
  id := "A"
  name := "dataset a"
  source := "portal"
  size := 1
  format := "csv"
  createdAt := 0
  modifiedAt := 0
  fingerprint := sampleFingerprint
  metadata :=
    { title := "aa"
      description := "bb"
      author := "au"
      organization := "org"
      version := "1"
      doi := Option.none
      license := "mit"
      tags := []
      columnCount := 1
      rowCount := 1
      dataTypes := [("a", "number")]
      provenance := sampleProvenance }

/-- Sample dataset `B`: same fingerprint hashes as `A`, different id. -/
def dsB : Dataset where
  id := "B"
  name := "dataset b"
  source := "portal"
  size := 1
  format := "csv"
  createdAt := 0
  modifiedAt := 0
  fingerprint := sampleFingerprint
  metadata :=
    { title := "aa"
      description := "bb"
      author := "au"
      organization := "org"
      version := "1"
      doi := Option.none
      license := "mit"
      tags := []
      columnCount := 1
      rowCount := 1
      dataTypes := [("a", "number")]
      provenance := sampleProvenance }

/-- Sample dataset `C`: zero feature vector, schema `{a}`, words `{aa, bb}`. -/
def dsC : Dataset where
  id := "C"
  name := "dataset c"
  source := "portal"
  size := 0
  format := "csv"
  createdAt := 0
  modifiedAt := 0
  fingerprint := sampleFingerprint
  metadata :=
    { title := "aa"
      description := "bb"
      author := "au"
      organization := "org"
      version := "1"
      doi := Option.none
      license := "mit"
      tags := []
      columnCount := 0
      rowCount := 0
      dataTypes := [("a", "t")]
      provenance := zeroProvenance }

/-- Sample dataset `D`: same fingerprint hashes as `C` but disjoint schema,
disjoint words and zero feature vector, so its full similarity against `C`
is `0` while the exact-match shortcut still fires. -/
def dsD : Dataset where
  id := "D"
  name := "dataset d"
  source := "portal"
  size := 0
  format := "csv"
  createdAt := 0
  modifiedAt := 0
  fingerprint := sampleFingerprint
  metadata :=
    { title := "cc"
      description := "dd"
      author := "au"
      organization := "org"
      version := "1"
      doi := Option.none
      license := "mit"
      tags := []
      columnCount := 0
      rowCount := 0
      dataTypes := [("b", "u")]
      provenance := zeroProvenance }

/-- A registry state holding only dataset `A` under its own id. -/
def stateA : DetectionState := ⟨[("A", dsA)], []⟩

/-- A registry state holding only dataset `C` under its own id. -/
def stateC : DetectionState := ⟨[("C", dsC)], []⟩

/-- A similarity record used for concrete alert instances. -/
def zeroMetrics : SimilarityMetrics := ⟨0, 0, 0, 0, 0⟩

/-- A concrete alert used to instantiate the retention property. -/
def sampleAlert : DuplicationAlert where
  id := "alert_0"
  type := DuplicationType.exact
  confidence := 1
  originalDataset := dsA
  duplicateDataset := dsB
  similarities := zeroMetrics
  recommendation := ""
  createdAt := 2600000000

/-- A state whose log holds only `sampleAlert`. -/
def sampleLogState : DetectionState := ⟨[], [sampleAlert]⟩

lemma sorted_strict_of_sorted_nodup {l : List (String × String)}
    (hs : List.Sorted entryLE l) (hn : (l.map Prod.fst).Nodup) :
    List.Pairwise (fun p q : String × String => p.1 < q.1) l := by
  have hne : List.Pairwise (fun p q : String × String => p.1 ≠ q.1) l :=
    (List.pairwise_map).mp hn
  exact (hs.and hne).imp fun h => lt_of_le_of_ne h.1 h.2

lemma insertionSort_eq_of_perm {s1 s2 : List (String × String)}
    (hperm : s1.Perm s2) (hnodup : (s1.map Prod.fst).Nodup) :
    s1.insertionSort entryLE = s2.insertionSort entryLE := by
  haveI : IsAntisymm (String × String) (fun p q : String × String => p.1 < q.1) :=
    ⟨fun _ _ h1 h2 => ((lt_asymm h1) h2).elim⟩
  have p1 := List.perm_insertionSort entryLE s1
  have p2 := List.perm_insertionSort entryLE s2
  have hp : (s1.insertionSort entryLE).Perm (s2.insertionSort entryLE) :=
    p1.trans (hperm.trans p2.symm)
  have hn1 : ((s1.insertionSort entryLE).map Prod.fst).Nodup :=
    ((p1.map Prod.fst).nodup_iff).mpr hnodup
  have hn2 : ((s2.insertionSort entryLE).map Prod.fst).Nodup :=
    ((hp.map Prod.fst).nodup_iff).mp hn1
  exact List.eq_of_perm_of_sorted hp
    (sorted_strict_of_sorted_nodup (List.sorted_insertionSort entryLE s1) hn1)
    (sorted_strict_of_sorted_nodup (List.sorted_insertionSort entryLE s2) hn2)

/-- Claim C4: for every schema (mapping from column name to declared type)
and every permutation of its entry order, `generateSchemaHash` yields the
identical digest: the hash is independent of the insertion order of the schema. -/
theorem generateSchemaHash_perm_invariant (s1 s2 : List (String × String))
    (hperm : s1.Perm s2) (hnodup : (s1.map Prod.fst).Nodup) :
    generateSchemaHash s1 = generateSchemaHash s2 := by
  unfold generateSchemaHash
  rw [insertionSort_eq_of_perm hperm hnodup]

/-- Claim C4 witness: the schema `{b: int, a: str}` hashed after swapping the
entry order yields the same digest. -/
theorem generateSchemaHash_perm_invariant_witness :
    [("b", "int"), ("a", "str")].Perm [("a", "str"), ("b", "int")] ∧
      ([("b", "int"), ("a", "str")].map Prod.fst).Nodup ∧
      generateSchemaHash [("b", "int"), ("a", "str")] =
        generateSchemaHash [("a", "str"), ("b", "int")] :=
  ⟨by decide, by decide,
    generateSchemaHash_perm_invariant _ _ (by decide) (by decide)⟩

/-- Claim C2: for every pair of datasets, the `confidence` field of
`calculateSimilarityMetrics` equals the unweighted arithmetic mean of its own
four component scores. -/
theorem confidence_eq_mean_components (dataset1 dataset2 : Dataset) :
    (calculateSimilarityMetrics dataset1 dataset2).confidence =
      ((calculateSimilarityMetrics dataset1 dataset2).jaccard +
        (calculateSimilarityMetrics dataset1 dataset2).cosine +
        (calculateSimilarityMetrics dataset1 dataset2).structural +
        (calculateSimilarityMetrics dataset1 dataset2).semantic) / 4 := by
  simp only [calculateSimilarityMetrics]
  ring

lemma calculateJaccardSimilarity_comm (set1 set2 : Finset String) :
    calculateJaccardSimilarity set1 set2 = calculateJaccardSimilarity set2 set1 := by
  unfold calculateJaccardSimilarity
  rw [Finset.union_comm, Finset.inter_comm]

lemma dotProd_comm (v1 v2 : List ℚ) : dotProd v1 v2 = dotProd v2 v1 := by
  induction v1 generalizing v2 with
  | nil => cases v2 <;> simp [dotProd]
  | cons a t ih =>
      cases v2 with
      | nil => simp [dotProd]
      | cons b u =>
          simp only [dotProd, List.zipWith_cons_cons, List.sum_cons] at ih ⊢
          rw [mul_comm, ih]

lemma calculateCosineSimilarity_comm (v1 v2 : List ℚ) :
    calculateCosineSimilarity v1 v2 = calculateCosineSimilarity v2 v1 := by
  unfold calculateCosineSimilarity
  rcases eq_or_ne v1.length v2.length with h | h
  · simp only [h, ne_eq, not_true_eq_false, if_false, ite_not]
    by_cases hm : Real.sqrt ((sumSq v1 : ℚ) : ℝ) = 0 ∨
        Real.sqrt ((sumSq v2 : ℚ) : ℝ) = 0
    · simp [hm, hm.symm]
    · have hm' : ¬ (Real.sqrt ((sumSq v2 : ℚ) : ℝ) = 0 ∨
          Real.sqrt ((sumSq v1 : ℚ) : ℝ) = 0) := fun hc => hm hc.symm
      simp only [hm, hm', if_false]
      rw [dotProd_comm, mul_comm]
  · simp [h, h.symm]

lemma calculateStructuralSimilarity_comm (schema1 schema2 : List (String × String)) :
    calculateStructuralSimilarity schema1 schema2 =
      calculateStructuralSimilarity schema2 schema1 := by
  unfold calculateStructuralSimilarity
  rw [Finset.union_comm, Finset.inter_comm]
  have hfil : ((keysFinset schema2) ∩ (keysFinset schema1)).filter
      (fun k => schema1.lookup k = schema2.lookup k) =
      ((keysFinset schema2) ∩ (keysFinset schema1)).filter
      (fun k => schema2.lookup k = schema1.lookup k) :=
    Finset.filter_congr fun x _ => eq_comm
  rw [hfil]

lemma calculateSemanticSimilarity_comm (dataset1 dataset2 : Dataset) :
    calculateSemanticSimilarity dataset1 dataset2 =
      calculateSemanticSimilarity dataset2 dataset1 :=
  calculateJaccardSimilarity_comm _ _

/-- Claim C6: each of the four component similarity metrics is symmetric in
its two arguments, and consequently the confidence of
`calculateSimilarityMetrics` is symmetric in the two datasets. -/
theorem similarity_symm :
    (∀ set1 set2 : Finset String,
      calculateJaccardSimilarity set1 set2 = calculateJaccardSimilarity set2 set1) ∧
    (∀ v1 v2 : List ℚ,
      calculateCosineSimilarity v1 v2 = calculateCosineSimilarity v2 v1) ∧
    (∀ schema1 schema2 : List (String × String),
      calculateStructuralSimilarity schema1 schema2 =
        calculateStructuralSimilarity schema2 schema1) ∧
    (∀ dataset1 dataset2 : Dataset,
      calculateSemanticSimilarity dataset1 dataset2 =
        calculateSemanticSimilarity dataset2 dataset1) ∧
    (∀ dataset1 dataset2 : Dataset,
      (calculateSimilarityMetrics dataset1 dataset2).confidence =
        (calculateSimilarityMetrics dataset2 dataset1).confidence) := by
  refine ⟨calculateJaccardSimilarity_comm, calculateCosineSimilarity_comm,
    calculateStructuralSimilarity_comm, calculateSemanticSimilarity_comm,
    fun dataset1 dataset2 => ?_⟩
  simp only [calculateSimilarityMetrics]
  rw [calculateJaccardSimilarity_comm, calculateCosineSimilarity_comm,
    calculateStructuralSimilarity_comm, calculateSemanticSimilarity_comm]

lemma calculateJaccardSimilarity_self {s : Finset String} (h : s.Nonempty) :
    calculateJaccardSimilarity s s = 1 := by
  unfold calculateJaccardSimilarity
  rw [Finset.union_self, Finset.inter_self]
  have hc : s.card ≠ 0 := Nat.pos_iff_ne_zero.mp (Finset.card_pos.mpr h)
  rw [if_neg hc]
  exact div_self (Nat.cast_ne_zero.mpr hc)

lemma splitWSGo_ne_nil : ∀ (l : List Char) (o : Option (List Char)),
    splitWSGo o l ≠ [] := by
  intro l
  induction l with
  | nil => intro o; cases o <;> simp [splitWSGo]
  | cons c rest ih =>
      intro o
      cases o with
      | none =>
          by_cases hc : c.isWhitespace
          · simpa [splitWSGo, hc] using ih Option.none
          · simpa [splitWSGo, hc] using ih (some [c])
      | some cur =>
          by_cases hc : c.isWhitespace
          · simp [splitWSGo, hc]
          · simpa [splitWSGo, hc] using ih (some (c :: cur))

lemma semanticWords_nonempty (d : Dataset) : (semanticWords d).Nonempty := by
  unfold semanticWords splitWS
  obtain ⟨w, hw⟩ :=
    List.exists_mem_of_ne_nil _
      (splitWSGo_ne_nil
        (toLowerStr (d.metadata.title ++ " " ++ d.metadata.description)).toList
        (some []))
  exact ⟨w, List.mem_toFinset.mpr hw⟩

lemma calculateSemanticSimilarity_self (d : Dataset) :
    calculateSemanticSimilarity d d = 1 :=
  calculateJaccardSimilarity_self (semanticWords_nonempty d)

lemma calculateStructuralSimilarity_self (schema : List (String × String)) :
    calculateStructuralSimilarity schema schema = 1 := by
  unfold calculateStructuralSimilarity
  rw [Finset.union_self, Finset.inter_self]
  by_cases h : (keysFinset schema).card = 0
  · rw [if_pos h]
  · rw [if_neg h, if_neg h,
      Finset.filter_true_of_mem fun x _ => rfl]
    have hc : ((keysFinset schema).card : ℝ) ≠ 0 := Nat.cast_ne_zero.mpr h
    rw [div_self hc]
    norm_num

lemma dotProd_self (v : List ℚ) : dotProd v v = sumSq v := by
  induction v with
  | nil => simp [dotProd, sumSq]
  | cons a t ih =>
      simp only [dotProd, List.zipWith_cons_cons, List.sum_cons, sumSq,
        List.map_cons] at ih ⊢
      rw [ih]

lemma sumSq_nonneg (v : List ℚ) : 0 ≤ sumSq v := by
  refine List.sum_nonneg fun x hx => ?_
  obtain ⟨a, _, rfl⟩ := List.mem_map.mp hx
  exact mul_self_nonneg a

lemma calculateCosineSimilarity_self {v : List ℚ} (h : sumSq v ≠ 0) :
    calculateCosineSimilarity v v = 1 := by
  unfold calculateCosineSimilarity
  have hpos : (0 : ℝ) < ((sumSq v : ℚ) : ℝ) := by
    exact_mod_cast lt_of_le_of_ne (sumSq_nonneg v) (Ne.symm h)
  have hs : Real.sqrt ((sumSq v : ℚ) : ℝ) ≠ 0 :=
    ne_of_gt (Real.sqrt_pos.mpr hpos)
  rw [if_neg (by simp), if_neg (not_or.mpr ⟨hs, hs⟩), dotProd_self,
    Real.mul_self_sqrt hpos.le]
  exact div_self (ne_of_gt hpos)

lemma columnsOf_nonempty {d : Dataset} (h : d.metadata.dataTypes ≠ []) :
    (columnsOf d).Nonempty := by
  obtain ⟨p, hp⟩ := List.exists_mem_of_ne_nil _ h
  exact ⟨p.1, List.mem_toFinset.mpr (List.mem_map_of_mem Prod.fst hp)⟩

/-- Claim C5: for every dataset with a non-empty schema and a non-zero
feature vector, `calculateSimilarityMetrics` compared with itself yields
confidence `1.0`, each of the four component metrics returning `1`. -/
theorem similarity_self_identity (d : Dataset)
    (hschema : d.metadata.dataTypes ≠ [])
    (hvec : sumSq (extractFeatureVector d) ≠ 0) :
    (calculateSimilarityMetrics d d).confidence = 1 := by
  simp only [calculateSimilarityMetrics]
  rw [calculateJaccardSimilarity_self (columnsOf_nonempty hschema),
    calculateStructuralSimilarity_self,
    calculateCosineSimilarity_self hvec,
    calculateSemanticSimilarity_self]
  norm_num

/-- Claim C5 witness: the concrete dataset `dsA` has a non-empty schema and a
non-zero feature vector, and its self-similarity confidence is `1.0`. -/
theorem similarity_self_identity_witness :
    dsA.metadata.dataTypes ≠ [] ∧
      sumSq (extractFeatureVector dsA) ≠ 0 ∧
      (calculateSimilarityMetrics dsA dsA).confidence = 1 :=
  ⟨by decide,
    by norm_num [sumSq, extractFeatureVector, dsA, sampleProvenance, sampleQuality],
    similarity_self_identity dsA (by decide)
      (by norm_num [sumSq, extractFeatureVector, dsA, sampleProvenance, sampleQuality])⟩

/-- Claim C7: every degenerate input resolves to a defined fallback value:
Jaccard of two empty sets is `0`, cosine of length-mismatched or
zero-magnitude vectors is `0`, structural similarity of two empty schemas is
`1`, and the type-match term is `0` when no column is shared, so the whole
structural score is `0` for disjoint non-empty schemas. -/
theorem degenerate_inputs_fallback :
    calculateJaccardSimilarity ∅ ∅ = 0 ∧
    (∀ v1 v2 : List ℚ, v1.length ≠ v2.length →
      calculateCosineSimilarity v1 v2 = 0) ∧
    (∀ v1 v2 : List ℚ, sumSq v1 = 0 ∨ sumSq v2 = 0 →
      calculateCosineSimilarity v1 v2 = 0) ∧
    calculateStructuralSimilarity [] [] = 1 ∧
    (∀ schema1 schema2 : List (String × String),
      keysFinset schema1 ∩ keysFinset schema2 = ∅ →
      (keysFinset schema1 ∪ keysFinset schema2).card ≠ 0 →
      calculateStructuralSimilarity schema1 schema2 = 0) := by
  refine ⟨?_, fun v1 v2 h => ?_, fun v1 v2 h => ?_, ?_, fun s1 s2 hint huni => ?_⟩
  · simp [calculateJaccardSimilarity]
  · rw [calculateCosineSimilarity, if_pos h]
  · rw [calculateCosineSimilarity]
    rcases eq_or_ne v1.length v2.length with hl | hl
    · rw [if_neg (by simpa using hl)]
      have hz : Real.sqrt ((sumSq v1 : ℚ) : ℝ) = 0 ∨
          Real.sqrt ((sumSq v2 : ℚ) : ℝ) = 0 := by
        rcases h with h | h <;> [left; right] <;>
          rw [h, Rat.cast_zero, Real.sqrt_zero]
      rw [if_pos hz]
    · rw [if_pos hl]
  · simp [calculateStructuralSimilarity, keysFinset]
  · rw [calculateStructuralSimilarity, if_neg huni, hint]
    simp

/-- Claim C7 witness: concrete length-mismatched vectors, a concrete
zero-magnitude vector, and concrete disjoint schemas all fall back to the
specified values. -/
theorem degenerate_inputs_fallback_witness :
    ([(1 : ℚ)].length ≠ [(1 : ℚ), 2].length ∧
      calculateCosineSimilarity [1] [1, 2] = 0) ∧
    (sumSq [(0 : ℚ)] = 0 ∧ calculateCosineSimilarity [0] [3] = 0) ∧
    (keysFinset [("a", "t")] ∩ keysFinset [("b", "u")] = ∅ ∧
      (keysFinset [("a", "t")] ∪ keysFinset [("b", "u")]).card ≠ 0 ∧
      calculateStructuralSimilarity [("a", "t")] [("b", "u")] = 0) :=
  ⟨⟨by decide, degenerate_inputs_fallback.2.1 [1] [1, 2] (by decide)⟩,
    ⟨by norm_num [sumSq],
      degenerate_inputs_fallback.2.2.1 [0] [3] (Or.inl (by norm_num [sumSq]))⟩,
    ⟨by decide, by decide,
      degenerate_inputs_fallback.2.2.2.2 [("a", "t")] [("b", "u")]
        (by decide) (by decide)⟩⟩

/-- Claim C3: with ascending thresholds, `isDuplicate` returns exactly the
highest tier whose threshold the confidence meets by inclusive comparisons
(`none` below the lowest threshold), and the returned tier rank is
non-decreasing in the confidence. -/
theorem isDuplicate_tiering (t : Thresholds)
    (hps : t.potential ≤ t.similar) (hse : t.similar ≤ t.exact) :
    (∀ s : SimilarityMetrics,
      (isDuplicate s t = DuplicationType.exact ↔ t.exact ≤ s.confidence) ∧
      (isDuplicate s t = DuplicationType.similar ↔
        t.similar ≤ s.confidence ∧ s.confidence < t.exact) ∧
      (isDuplicate s t = DuplicationType.potential ↔
        t.potential ≤ s.confidence ∧ s.confidence < t.similar) ∧
      (isDuplicate s t = DuplicationType.none ↔ s.confidence < t.potential)) ∧
    (∀ s1 s2 : SimilarityMetrics, s1.confidence ≤ s2.confidence →
      tierRank (isDuplicate s1 t) ≤ tierRank (isDuplicate s2 t)) := by
  constructor
  · intro s
    unfold isDuplicate
    split_ifs with h1 h2 h3
    · exact ⟨⟨fun _ => h1, fun _ => rfl⟩,
        ⟨fun h => absurd h (by decide), fun h => absurd h1 (not_le.mpr h.2)⟩,
        ⟨fun h => absurd h (by decide),
          fun h => absurd h1 (not_le.mpr (lt_of_lt_of_le h.2 hse))⟩,
        ⟨fun h => absurd h (by decide),
          fun h => absurd h1 (not_le.mpr (lt_of_lt_of_le h (hps.trans hse)))⟩⟩
    · exact ⟨⟨fun h => absurd h (by decide), fun h => absurd h h1⟩,
        ⟨fun _ => ⟨h2, not_le.mp h1⟩, fun _ => rfl⟩,
        ⟨fun h => absurd h (by decide), fun h => absurd h2 (not_le.mpr h.2)⟩,
        ⟨fun h => absurd h (by decide),
          fun h => absurd (hps.trans h2) (not_le.mpr h)⟩⟩
    · exact ⟨⟨fun h => absurd h (by decide), fun h => absurd h h1⟩,
        ⟨fun h => absurd h (by decide), fun h => absurd h.1 h2⟩,
        ⟨fun _ => ⟨h3, not_le.mp h2⟩, fun _ => rfl⟩,
        ⟨fun h => absurd h (by decide), fun h => absurd h3 (not_le.mpr h)⟩⟩
    · exact ⟨⟨fun h => absurd h (by decide), fun h => absurd h h1⟩,
        ⟨fun h => absurd h (by decide), fun h => absurd h.1 h2⟩,
        ⟨fun h => absurd h (by decide), fun h => absurd h.1 h3⟩,
        ⟨fun _ => not_le.mp h3, fun _ => rfl⟩⟩
  · intro s1 s2 hle
    unfold isDuplicate
    split_ifs with h1 h2 h3 h4 h5 h6 h7 h8 h9 h10 h11 h12
    all_goals simp only [tierRank]
    all_goals (try norm_num)
    all_goals (exfalso; linarith)

/-- Claim C3 witness: the default thresholds are ascending, and a confidence
of `0.9` classifies as `similar` under them. -/
theorem isDuplicate_tiering_witness :
    (defaultThresholds.potential ≤ defaultThresholds.similar ∧
      defaultThresholds.similar ≤ defaultThresholds.exact) ∧
      isDuplicate ⟨0, 0, 0, 0, 0.9⟩ defaultThresholds = DuplicationType.similar :=
  ⟨⟨by norm_num [defaultThresholds], by norm_num [defaultThresholds]⟩,
    (((isDuplicate_tiering defaultThresholds (by norm_num [defaultThresholds])
          (by norm_num [defaultThresholds])).1 ⟨0, 0, 0, 0, 0.9⟩).2.1).mpr
      (by norm_num [defaultThresholds])⟩

lemma mem_mapSet_of_ne {l : List (String × Dataset)} {k : String} {x : Dataset}
    (h : (k, x) ∈ l) {key : String} (hk : k ≠ key) (v : Dataset) :
    (k, x) ∈ mapSet l key v := by
  unfold mapSet
  split_ifs with hc
  · refine List.mem_map.mpr ⟨(k, x), h, ?_⟩
    simp [hk]
  · exact List.mem_append_left _ h

lemma scanAlerts_exact_mem {l : List (String × Dataset)} {k : String} {x : Dataset}
    {nd : Dataset} (hmem : (k, x) ∈ l) (hk : k ≠ nd.id)
    (hx : isExactMatch nd x = true) (now : ℤ) :
    createAlert now nd x DuplicationType.exact 1 ∈ scanAlerts now nd l := by
  induction l with
  | nil => cases hmem
  | cons p rest ih =>
      obtain ⟨kp, xp⟩ := p
      rcases List.mem_cons.mp hmem with heq | htail
      · injection heq with hk1 hk2
        subst hk1
        subst hk2
        simp only [scanAlerts]
        rw [if_neg hk, if_pos hx]
        exact List.mem_cons_self _ _
      · simp only [scanAlerts]
        split_ifs with h1 h2 h3
        · exact ih htail
        · exact List.mem_cons_of_mem _ (ih htail)
        · exact List.mem_cons_of_mem _ (ih htail)
        · exact ih htail

/-- Claim C1: whenever a dataset `A` sits in the registry under a key other
than `B.id` and the fingerprint of `B` agrees with that of `A` on both the content hash
and the schema hash, `addDataset B` records an alert for the pair `(A, B)`
of type `exact` with confidence `1.0`, with no condition on the full
similarity metrics of the pair. -/
theorem addDataset_exact_alert (now : ℤ) (st : DetectionState)
    (A B : Dataset) (kA : String)
    (hmem : (kA, A) ∈ st.datasets) (hk : kA ≠ B.id)
    (hch : B.fingerprint.contentHash = A.fingerprint.contentHash)
    (hsh : B.fingerprint.schemaHash = A.fingerprint.schemaHash) :
    ∃ a ∈ (addDataset now st B).alerts,
      a.originalDataset = A ∧ a.duplicateDataset = B ∧
      a.type = DuplicationType.exact ∧ a.confidence = 1 := by
  have hx : isExactMatch B A = true := by
    simp [isExactMatch, hch, hsh]
  refine ⟨createAlert now B A DuplicationType.exact 1, ?_, rfl, rfl, rfl, rfl⟩
  show _ ∈ st.alerts ++ scanAlerts now B (mapSet st.datasets B.id B)
  exact List.mem_append_right _
    (scanAlerts_exact_mem (mem_mapSet_of_ne hmem hk B) hk hx now)

/-- Claim C1 witness: registering `dsB` against a registry holding `dsA`
with identical fingerprint hashes records an exact alert for `(dsA, dsB)`
with confidence `1.0`. -/
theorem addDataset_exact_alert_witness :
    (("A", dsA) ∈ stateA.datasets ∧ "A" ≠ dsB.id ∧
      dsB.fingerprint.contentHash = dsA.fingerprint.contentHash ∧
      dsB.fingerprint.schemaHash = dsA.fingerprint.schemaHash) ∧
    ∃ a ∈ (addDataset 5 stateA dsB).alerts,
      a.originalDataset = dsA ∧ a.duplicateDataset = dsB ∧
      a.type = DuplicationType.exact ∧ a.confidence = 1 :=
  ⟨⟨by simp [stateA], by decide, rfl, rfl⟩,
    addDataset_exact_alert 5 stateA dsA dsB "A" (by simp [stateA]) (by decide) rfl rfl⟩

/-- Claim C8: after `clearOldAlerts` no remaining alert was created before
the cutoff, every alert created strictly after the cutoff is retained with
no condition on any other attribute, and the only other state-changing
operation, `addDataset`, never removes an alert. -/
theorem clearOldAlerts_retention (now olderThanDays : ℤ) (st : DetectionState) :
    (∀ a ∈ (clearOldAlerts now olderThanDays st).alerts,
      ¬ a.createdAt < now - olderThanDays * msPerDay) ∧
    (∀ a ∈ st.alerts, now - olderThanDays * msPerDay < a.createdAt →
      a ∈ (clearOldAlerts now olderThanDays st).alerts) ∧
    (∀ (t : ℤ) (d : Dataset), ∀ a ∈ st.alerts, a ∈ (addDataset t st d).alerts) := by
  refine ⟨fun a ha => ?_, fun a ha h => ?_, fun t d a ha => ?_⟩
  · have hp := List.of_mem_filter
      (show a ∈ List.filter _ st.alerts from ha)
    have h' := of_decide_eq_true hp
    intro hlt
    omega
  · exact List.mem_filter.mpr ⟨ha, decide_eq_true h⟩
  · show a ∈ st.alerts ++ scanAlerts t d (mapSet st.datasets d.id d)
    exact List.mem_append_left _ ha

/-- Claim C8 witness: a concrete alert newer than the cutoff survives
`clearOldAlerts 30`. -/
theorem clearOldAlerts_retention_witness :
    sampleAlert ∈ sampleLogState.alerts ∧
      1000 - 30 * msPerDay < sampleAlert.createdAt ∧
      sampleAlert ∈ (clearOldAlerts 1000 30 sampleLogState).alerts :=
  ⟨by simp [sampleLogState], by decide,
    (clearOldAlerts_retention 1000 30 sampleLogState).2.1 sampleAlert
      (by simp [sampleLogState]) (by decide)⟩

lemma scanAlerts_mem_inv {now : ℤ} {nd : Dataset} {l : List (String × Dataset)}
    {a : DuplicationAlert} (h : a ∈ scanAlerts now nd l) :
    ∃ p ∈ l, p.1 ≠ nd.id ∧ a.originalDataset = p.2 ∧ a.duplicateDataset = nd := by
  induction l with
  | nil => simp [scanAlerts] at h
  | cons p rest ih =>
      obtain ⟨kp, xp⟩ := p
      simp only [scanAlerts] at h
      split_ifs at h with h1 h2 h3
      · obtain ⟨q, hq, hprops⟩ := ih h
        exact ⟨q, List.mem_cons_of_mem _ hq, hprops⟩
      · rcases List.mem_cons.mp h with rfl | htail
        · exact ⟨(kp, xp), List.mem_cons_self _ _, h1, rfl, rfl⟩
        · obtain ⟨q, hq, hprops⟩ := ih htail
          exact ⟨q, List.mem_cons_of_mem _ hq, hprops⟩
      · rcases List.mem_cons.mp h with rfl | htail
        · exact ⟨(kp, xp), List.mem_cons_self _ _, h1, rfl, rfl⟩
        · obtain ⟨q, hq, hprops⟩ := ih htail
          exact ⟨q, List.mem_cons_of_mem _ hq, hprops⟩
      · obtain ⟨q, hq, hprops⟩ := ih h
        exact ⟨q, List.mem_cons_of_mem _ hq, hprops⟩

lemma keyInv_mapSet {l : List (String × Dataset)} (h : ∀ p ∈ l, p.1 = p.2.id)
    (d : Dataset) : ∀ p ∈ mapSet l d.id d, p.1 = p.2.id := by
  intro p hp
  unfold mapSet at hp
  split_ifs at hp with hc
  · obtain ⟨q, hq, rfl⟩ := List.mem_map.mp hp
    by_cases hqk : q.1 = d.id
    · simp [hqk]
    · simpa [hqk] using h q hq
  · rcases List.mem_append.mp hp with h1 | h2
    · exact h p h1
    · rw [List.mem_singleton.mp h2]

/-- Claim C9: in every reachable state of the detection service no alert
pairs a dataset id with itself, and `addDataset d` on a reachable state
never produces an alert whose original and duplicate ids both equal `d.id`. -/
theorem reachable_no_self_alert (st : DetectionState) (h : Reachable st) :
    NoSelfPair st ∧ ∀ (now : ℤ) (d : Dataset), NoSelfPair (addDataset now st d) := by
  have main : ∀ s, Reachable s → KeyInv s ∧ NoSelfPair s := by
    intro s hs
    induction hs with
    | init =>
        exact ⟨fun p hp => absurd hp (List.not_mem_nil p),
          fun a ha => absurd ha (List.not_mem_nil a)⟩
    | add now st' d _ ih =>
        refine ⟨keyInv_mapSet ih.1 d, fun a ha => ?_⟩
        have ha' : a ∈ st'.alerts ++ scanAlerts now d (mapSet st'.datasets d.id d) := ha
        rcases List.mem_append.mp ha' with h1 | h2
        · exact ih.2 a h1
        · obtain ⟨p, hp, hpk, horig, hdup⟩ := scanAlerts_mem_inv h2
          have hkey : p.1 = p.2.id := keyInv_mapSet ih.1 d p hp
          rw [horig, hdup, ← hkey]
          exact hpk
    | clear now days st' _ ih =>
        refine ⟨ih.1, fun a ha => ?_⟩
        have ha' : a ∈ st'.alerts.filter
            (fun alert => decide (now - days * msPerDay < alert.createdAt)) := ha
        exact ih.2 a (List.mem_of_mem_filter ha')
  exact ⟨(main st h).2, fun now d => (main _ (Reachable.add now st d h)).2⟩

/-- Claim C9 witness: a fresh service, and a fresh service after one
insertion, hold no self-paired alert. -/
theorem reachable_no_self_alert_witness :
    NoSelfPair initialState ∧
      ∀ (now : ℤ) (d : Dataset), NoSelfPair (addDataset now initialState d) :=
  reachable_no_self_alert initialState Reachable.init

lemma metricsDC_confidence : (calculateSimilarityMetrics dsD dsC).confidence = 0 := by
  have hj : calculateJaccardSimilarity (columnsOf dsD) (columnsOf dsC) = 0 := by
    unfold calculateJaccardSimilarity
    have h1 : ((columnsOf dsD) ∪ (columnsOf dsC)).card = 2 := by decide
    have h2 : ((columnsOf dsD) ∩ (columnsOf dsC)).card = 0 := by decide
    rw [h1, h2]
    norm_num
  have hst : calculateStructuralSimilarity dsD.metadata.dataTypes
      dsC.metadata.dataTypes = 0 := by
    unfold calculateStructuralSimilarity
    have h1 : ((keysFinset dsD.metadata.dataTypes) ∪
        (keysFinset dsC.metadata.dataTypes)).card = 2 := by decide
    have h2 : ((keysFinset dsD.metadata.dataTypes) ∩
        (keysFinset dsC.metadata.dataTypes)).card = 0 := by decide
    rw [h1, h2]
    norm_num
  have hco : calculateCosineSimilarity (extractFeatureVector dsD)
      (extractFeatureVector dsC) = 0 := by
    unfold calculateCosineSimilarity
    have hz : sumSq (extractFeatureVector dsD) = 0 := by
      norm_num [sumSq, extractFeatureVector, dsD, zeroProvenance, zeroQuality]
    rw [if_neg (by decide), hz, Rat.cast_zero, Real.sqrt_zero,
      if_pos (Or.inl rfl)]
  have hse : calculateSemanticSimilarity dsD dsC = 0 := by
    unfold calculateSemanticSimilarity calculateJaccardSimilarity
    have h1 : ((semanticWords dsD) ∪ (semanticWords dsC)).card = 4 := by decide
    have h2 : ((semanticWords dsD) ∩ (semanticWords dsC)).card = 0 := by decide
    rw [h1, h2]
    norm_num
  simp only [calculateSimilarityMetrics]
  rw [hj, hst, hco, hse]
  norm_num

/-- Claim C10: an alert recorded via the exact-match shortcut carries the
fully computed similarity metrics of the pair in its `similarities` field
(alert creation recomputes them even on the shortcut path), its top-level
confidence is `1.0`, and on a concrete pair with equal hashes but unrelated
contents the carried `similarities.confidence` is strictly below `1.0`. -/
theorem exact_alert_full_similarities :
    (∀ (now : ℤ) (st : DetectionState) (A B : Dataset) (kA : String),
      (kA, A) ∈ st.datasets → kA ≠ B.id →
      B.fingerprint.contentHash = A.fingerprint.contentHash →
      B.fingerprint.schemaHash = A.fingerprint.schemaHash →
      ∃ a ∈ (addDataset now st B).alerts,
        a.type = DuplicationType.exact ∧ a.confidence = 1 ∧
        a.similarities = calculateSimilarityMetrics B A) ∧
    ∃ a ∈ (addDataset 0 stateC dsD).alerts,
      a.type = DuplicationType.exact ∧ a.confidence = 1 ∧
      a.similarities.confidence < 1 := by
  have main : ∀ (now : ℤ) (st : DetectionState) (A B : Dataset) (kA : String),
      (kA, A) ∈ st.datasets → kA ≠ B.id →
      B.fingerprint.contentHash = A.fingerprint.contentHash →
      B.fingerprint.schemaHash = A.fingerprint.schemaHash →
      ∃ a ∈ (addDataset now st B).alerts,
        a.type = DuplicationType.exact ∧ a.confidence = 1 ∧
        a.similarities = calculateSimilarityMetrics B A := by
    intro now st A B kA hmem hk hch hsh
    have hx : isExactMatch B A = true := by simp [isExactMatch, hch, hsh]
    refine ⟨createAlert now B A DuplicationType.exact 1, ?_, rfl, rfl, rfl⟩
    show _ ∈ st.alerts ++ scanAlerts now B (mapSet st.datasets B.id B)
    exact List.mem_append_right _
      (scanAlerts_exact_mem (mem_mapSet_of_ne hmem hk B) hk hx now)
  refine ⟨main, ?_⟩
  obtain ⟨a, ha, ht, hc, hs⟩ :=
    main 0 stateC dsC dsD "C" (by simp [stateC]) (by decide) rfl rfl
  refine ⟨a, ha, ht, hc, ?_⟩
  rw [hs, metricsDC_confidence]
  norm_num

/-- Claim C10 witness: the shortcut alert for the concrete pair `(dsC, dsD)`
carries the fully computed metrics of the pair. -/
theorem exact_alert_full_similarities_witness :
    (("C", dsC) ∈ stateC.datasets ∧ "C" ≠ dsD.id) ∧
      ∃ a ∈ (addDataset 0 stateC dsD).alerts,
        a.type = DuplicationType.exact ∧ a.confidence = 1 ∧
        a.similarities = calculateSimilarityMetrics dsD dsC :=
  ⟨⟨by simp [stateC], by decide⟩,
    exact_alert_full_similarities.1 0 stateC dsC dsD "C"
      (by simp [stateC]) (by decide) rfl rfl⟩

end DDAS
